import Mathlib

/-!
Verification of the rebar resource-economy simulation kernel.

The Rust source stores resources as `f32`; this development models those
values as exact rationals (`ℚ`), with the `approx` crate's default
absolute-difference tolerance for `f32` (`f32::EPSILON = 2 ^ (-23)`)
modelled explicitly as `f32_eps`.  `HashMap`/`HashSet` from the standard
library are modelled as association lists / membership lists with
first-match lookup (registration prepends, which matches insert-overwrite
semantics).  Fallible operations (`Result<_, Box<dyn Error>>`) are
modelled with `Except String`.  Panicking index accesses are totalised
with `List.getD` and a default element; theorems that depend on an index
being in range carry that bound as an explicit hypothesis.
-/

/-- World parameters, from `world_params.rs`. -/
structure WorldParams where
  decay_delay : ℚ
  decay_rate : ℚ
  start_metal : ℚ
  base_metal_storage : ℚ
  start_energy : ℚ
  base_energy_storage : ℚ
deriving DecidableEq, Repr

/-- `DEFAULT_WORLD_PARAMS` from `world_params.rs` (`Default for WorldParams`). -/
def WorldParams.default : WorldParams :=
  { decay_delay := 9
    decay_rate := 3 / 100
    start_metal := 1000
    base_metal_storage := 500
    start_energy := 1000
    base_energy_storage := 500 }

/-- The `Unit` entity from `unit.rs` (named `Unit'` because `Unit` is taken
in Lean).  All `f32` fields become `ℚ`. -/
@[ext]
structure Unit' where
  name : String
  alive : Bool
  metal : ℚ
  energy : ℚ
  buildpower : ℚ
  build_target : Option Nat
  buildtime : ℚ
  m_build_cost : ℚ
  e_build_cost : ℚ
  e_cost_per_second : ℚ
  e_per_second : ℚ
  wind_e_per_second : ℚ
  e_storage : ℚ
  m_per_second : ℚ
  m_storage : ℚ
  /-- Modelled from the spec: the `build_options` field (the set of template
  names this unit may initiate construction of) is used by
  `GameState::build_unit` in `game_state.rs` and by its tests, but the copy
  of `unit.rs` in the repository snapshot does not declare it.  The spec
  describes it as a set of names; it is modelled as a `List String` with
  membership as the capability test, starting empty for fresh units. -/
  build_options : List String
deriving DecidableEq, Repr

/-- `Unit::new_unconstructed` from `unit.rs`. -/
def Unit'.new_unconstructed (m_cost e_cost buildtime : ℚ) : Unit' :=
  { name := "Unnamed"
    alive := false
    metal := 0
    energy := 0
    buildpower := 0
    build_target := none
    buildtime := buildtime
    m_build_cost := m_cost
    e_build_cost := e_cost
    e_cost_per_second := 0
    e_per_second := 0
    wind_e_per_second := 0
    e_storage := 0
    m_per_second := 0
    m_storage := 0
    build_options := [] }

/-- `Unit::construct` from `unit.rs`: bank the full build cost and mark alive. -/
def Unit'.construct (u : Unit') : Unit' :=
  { u with metal := u.m_build_cost, energy := u.e_build_cost, alive := true }

instance : Inhabited Unit' := ⟨Unit'.new_unconstructed 0 0 0⟩

/-- The game state from `game_state.rs`.  The `HashMap` catalog is an
association list with first-match lookup. -/
@[ext]
structure GameState where
  units : List Unit'
  unit_catalog : List (String × Unit')
  world_params : WorldParams
  energy : ℚ
  metal : ℚ
  wind_strength : ℚ
  time : ℚ
deriving DecidableEq, Repr

/-- `GameState::new` from `game_state.rs`. -/
def GameState.new (world_params : WorldParams) : GameState :=
  { units := []
    unit_catalog := []
    world_params := world_params
    energy := world_params.start_energy
    metal := world_params.start_metal
    wind_strength := 25
    time := 0 }

/-- First-match lookup in the catalog association list (`HashMap::get`). -/
def lookupCatalog : List (String × Unit') → String → Option Unit'
  | [], _ => none
  | (k, v) :: rest, key => if k = key then some v else lookupCatalog rest key

/-- Error message of `GameState::add_unit` (the source string quotes the
name; the quotes are omitted here). -/
def unknownUnitMsg (n : String) : String := n ++ " is not a known unit."

/-- Error message of `GameState::build_unit` (the source string quotes the
name; the quotes are omitted here). -/
def cannotBuildMsg (b : String) : String := "Constructor cannot build unit " ++ b

/-- `GameState::register_unit`: make the unit available under this name
(prepending to the association list realises insert-overwrite). -/
def GameState.register_unit (s : GameState) (name : String) (unit : Unit') : GameState :=
  { s with unit_catalog := (name, unit) :: s.unit_catalog }

/-- `GameState::add_unit`: clone the registered template, append it, return
its index.  The state is returned alongside the `Result`. -/
def GameState.add_unit (s : GameState) (unit_name : String) : GameState × Except String Nat :=
  match lookupCatalog s.unit_catalog unit_name with
  | none => (s, Except.error (unknownUnitMsg unit_name))
  | some tmpl => ({ s with units := s.units ++ [tmpl] }, Except.ok s.units.length)

/-- `GameState::add_completed_unit`: `add_unit` followed by `construct` on
the new instance. -/
def GameState.add_completed_unit (s : GameState) (unit_name : String) :
    GameState × Except String Nat :=
  match s.add_unit unit_name with
  | (s1, Except.ok i) =>
      ({ s1 with units := s1.units.set i ((s1.units.getD i default).construct) }, Except.ok i)
  | r => r

/-- `GameState::metal_storage`: world base plus `m_storage` of alive units. -/
def GameState.metal_storage (s : GameState) : ℚ :=
  s.units.foldl (fun storage u => if u.alive then storage + u.m_storage else storage)
    s.world_params.base_metal_storage

/-- `GameState::energy_storage`: world base plus `e_storage` of alive units. -/
def GameState.energy_storage (s : GameState) : ℚ :=
  s.units.foldl (fun storage u => if u.alive then storage + u.e_storage else storage)
    s.world_params.base_energy_storage

/-- The `approx` crate's default absolute tolerance for `f32`
(`f32::EPSILON = 2 ^ (-23)`), used by `abs_diff_eq!` in `simulate`. -/
def f32_eps : ℚ := 1 / 2 ^ 23

/-- `f32::min`, written so that the kernel can evaluate it on concrete
rationals (it equals `min`, see `f32_min_eq`). -/
def f32_min (a b : ℚ) : ℚ := if a ≤ b then a else b

/-- `f32::abs`, written so that the kernel can evaluate it on concrete
rationals (it equals `|·|`, see `f32_abs_eq`). -/
def f32_abs (a : ℚ) : ℚ := if 0 ≤ a then a else -a

/-- Pass 1 of `GameState::simulate`: energy and metal production.  Each
alive unit adds `dt * e_per_second` and `dt * min wind_e_per_second
wind_strength` to the global energy pool. -/
def GameState.productionPass (dt : ℚ) (s : GameState) : GameState :=
  { s with
    energy := s.units.foldl
      (fun e u =>
        if u.alive then e + dt * u.e_per_second + dt * f32_min u.wind_e_per_second s.wind_strength
        else e)
      s.energy }

/-- Loop body of pass 2 of `GameState::simulate`, acting on the pair
(global energy, global metal): an alive unit consumes
`dt * e_cost_per_second` energy and produces `dt * m_per_second` metal,
but only when the current energy pool strictly exceeds the consumption;
otherwise it stalls with no effect. -/
def consumeStep (dt : ℚ) (p : ℚ × ℚ) (u : Unit') : ℚ × ℚ :=
  if u.alive then
    let e_consumed := dt * u.e_cost_per_second
    if p.1 > e_consumed then (p.1 - e_consumed, p.2 + dt * u.m_per_second) else p
  else p

/-- Pass 2 of `GameState::simulate`: gated, list-order-priority consumption
in list order over the shared mutable pools. -/
def GameState.consumptionPass (dt : ℚ) (s : GameState) : GameState :=
  let p := s.units.foldl (consumeStep dt) (s.energy, s.metal)
  { s with energy := p.1, metal := p.2 }

/-- `remaining` in the build-progress pass: the fraction of the target still
to build, judged by its banked metal. -/
def build_remaining (tu : Unit') : ℚ := 1 - tu.metal / tu.m_build_cost

/-- `build_step` in the build-progress pass: the fraction of the target
built this tick, clamped above by what remains. -/
def build_step_amt (dt : ℚ) (bu tu : Unit') : ℚ :=
  f32_min (dt * bu.buildpower / tu.buildtime) (build_remaining tu)

/-- `build_m_cost` in the build-progress pass. -/
def build_m_cost (dt : ℚ) (bu tu : Unit') : ℚ := build_step_amt dt bu tu * tu.m_build_cost

/-- `build_e_cost` in the build-progress pass. -/
def build_e_cost (dt : ℚ) (bu tu : Unit') : ℚ := build_step_amt dt bu tu * tu.e_build_cost

/-- One iteration of pass 3 of `GameState::simulate` (loop body for builder
index `i`): if unit `i` is alive and has a build target `t`, transfer an
all-or-nothing build increment from the global pools into the target's
banked resources, and, when the (clamped) build step equals the remaining
fraction within `f32_eps`, construct the target and clear the builder's
`build_target`. -/
def GameState.buildStep (dt : ℚ) (s : GameState) (i : Nat) : GameState :=
  let bu := s.units.getD i default
  match bu.build_target with
  | none => s
  | some t =>
    if bu.alive then
      let tu := s.units.getD t default
      let s1 :=
        if build_m_cost dt bu tu < s.metal ∧ build_e_cost dt bu tu < s.energy then
          { s with
            metal := s.metal - build_m_cost dt bu tu
            energy := s.energy - build_e_cost dt bu tu
            units := s.units.set t
              { tu with
                metal := tu.metal + build_m_cost dt bu tu
                energy := tu.energy + build_e_cost dt bu tu } }
        else s
      if f32_abs (build_step_amt dt bu tu - build_remaining tu) ≤ f32_eps then
        let s2 := { s1 with units := s1.units.set t ((s1.units.getD t default).construct) }
        { s2 with
          units := s2.units.set i { (s2.units.getD i default) with build_target := none } }
      else s1
    else s

/-- Pass 3 of `GameState::simulate`: assign build power, iterating builder
indices `0..units.len()` in list order over the evolving state. -/
def GameState.buildPass (dt : ℚ) (s : GameState) : GameState :=
  (List.range s.units.length).foldl (GameState.buildStep dt) s

/-- `GameState::simulate`: the four ordered passes, then the storage clamp
and the time advance. -/
def GameState.simulate (s : GameState) (dt : ℚ) : GameState :=
  let s1 := GameState.productionPass dt s
  let s2 := GameState.consumptionPass dt s1
  let s3 := GameState.buildPass dt s2
  { s3 with
    metal := f32_min s3.metal s3.metal_storage
    energy := f32_min s3.energy s3.energy_storage
    time := s3.time + dt }

/-- `GameState::build_unit`: capability-gated unit construction order. -/
def GameState.build_unit (s : GameState) (builder : Nat) (buildee : String) :
    GameState × Except String Nat :=
  if buildee ∈ (s.units.getD builder default).build_options then
    match s.add_unit buildee with
    | (s1, Except.ok idx) =>
        ({ s1 with
           units := s1.units.set builder
             { (s1.units.getD builder default) with build_target := some idx } },
         Except.ok idx)
    | (s1, Except.error e) => (s1, Except.error e)
  else (s, Except.error (cannotBuildMsg buildee))

/-- A Lua value as far as the loader inspects it (`mlua::Value`): a number
(`Integer` and `Number` both become `ℚ`), a string, a table, or anything
else. -/
inductive LuaVal where
  | num (x : ℚ)
  | str (s : String)
  | table (fields : List (String × LuaVal))
  | other

/-- First-match lookup in a parsed definition table (`HashMap::get`). -/
def lookupField : List (String × LuaVal) → String → Option LuaVal
  | [], _ => none
  | (k, v) :: rest, key => if k = key then some v else lookupField rest key

/-- Error message of the loader's float accessors. -/
def invalidFloatMsg (key : String) : String :=
  "Attempted to parse invalid float for " ++ key

/-- Error message of the loader's string accessor. -/
def invalidStringMsg (key : String) : String :=
  "Attempted to parse invalid string for " ++ key

/-- Error message for a missing required field. -/
def missingFieldMsg (key : String) : String :=
  "Required key " ++ key ++ " is missing."

/-- Error message for the table-of-tables unwrap failing (`from_lua`). -/
def fromLuaErrMsg : String := "Single definition entry is not a table."

/-- `get_float_or` from `loader.rs`. -/
def get_float_or (defs : List (String × LuaVal)) (key : String) (d : ℚ) : Except String ℚ :=
  match lookupField defs key with
  | none => Except.ok d
  | some (LuaVal.num x) => Except.ok x
  | some _ => Except.error (invalidFloatMsg key)

/-- `get_float` from `loader.rs` (required field). -/
def get_float (defs : List (String × LuaVal)) (key : String) : Except String ℚ :=
  match lookupField defs key with
  | none => Except.error (missingFieldMsg key)
  | some (LuaVal.num x) => Except.ok x
  | some _ => Except.error (invalidFloatMsg key)

/-- `get_string_or` from `loader.rs`. -/
def get_string_or (defs : List (String × LuaVal)) (key : String) (d : String) :
    Except String String :=
  match lookupField defs key with
  | none => Except.ok d
  | some (LuaVal.str s) => Except.ok s
  | some _ => Except.error (invalidStringMsg key)

/-- The single-entry unwrap in `parse_definition` (`loader.rs` lines 56-58):
when the evaluated definition map has exactly one entry, its value must be
a table and becomes the field map. -/
def unwrapDefs (defs : List (String × LuaVal)) : Except String (List (String × LuaVal)) :=
  if defs.length = 1 then
    match defs with
    | [(_, LuaVal.table m)] => Except.ok m
    | _ => Except.error fromLuaErrMsg
  else Except.ok defs

/-- The field-map-to-`Unit` part of `parse_definition` (`loader.rs` lines
60-81), including the negative-`energyupkeep` reinterpretation.  The source
`Unit` literal predates the `build_target`/`build_options` fields; per the
spec a fresh template has no build target and no capabilities. -/
def parse_fields (defs : List (String × LuaVal)) : Except String Unit' :=
  match get_float_or defs ("energymake") 0 with
  | Except.error e => Except.error e
  | Except.ok e_per_sec0 =>
  match get_float_or defs ("energyupkeep") 0 with
  | Except.error e => Except.error e
  | Except.ok e_cost0 =>
  let e_per_sec := if e_cost0 < 0 then e_per_sec0 - e_cost0 else e_per_sec0
  let e_cost := if e_cost0 < 0 then 0 else e_cost0
  match get_string_or defs ("name") ("Unknown") with
  | Except.error e => Except.error e
  | Except.ok name =>
  match get_float defs ("buildtime") with
  | Except.error e => Except.error e
  | Except.ok buildtime =>
  match get_float defs ("metalcost") with
  | Except.error e => Except.error e
  | Except.ok m_build_cost =>
  match get_float defs ("energycost") with
  | Except.error e => Except.error e
  | Except.ok e_build_cost =>
  match get_float_or defs ("workertime") 0 with
  | Except.error e => Except.error e
  | Except.ok buildpower =>
  match get_float_or defs ("windgenerator") 0 with
  | Except.error e => Except.error e
  | Except.ok wind_e_per_second =>
  match get_float_or defs ("energystorage") 0 with
  | Except.error e => Except.error e
  | Except.ok e_storage =>
  match get_float_or defs ("metalmake") 0 with
  | Except.error e => Except.error e
  | Except.ok m_per_second =>
  match get_float_or defs ("metalstorage") 0 with
  | Except.error e => Except.error e
  | Except.ok m_storage =>
  Except.ok
    { name := name
      alive := false
      metal := 0
      energy := 0
      buildpower := buildpower
      build_target := none
      buildtime := buildtime
      m_build_cost := m_build_cost
      e_build_cost := e_build_cost
      e_cost_per_second := e_cost
      e_per_second := e_per_sec
      wind_e_per_second := wind_e_per_second
      e_storage := e_storage
      m_per_second := m_per_second
      m_storage := m_storage
      build_options := [] }

/-- `parse_definition` from `loader.rs`, taking the field map the external
Lua evaluation produced: unwrap a single-entry table-of-tables, then read
the fields. -/
def parse_definition (defs0 : List (String × LuaVal)) : Except String Unit' :=
  match unwrapDefs defs0 with
  | Except.error e => Except.error e
  | Except.ok defs => parse_fields defs

/-- The tuple of `Unit'` fields that `simulate` is never allowed to change:
everything except `metal`, `energy`, `alive` and `build_target`. -/
def frameFields (u : Unit') :
    String × ℚ × ℚ × ℚ × ℚ × ℚ × ℚ × ℚ × ℚ × ℚ × ℚ × List String :=
  (u.name, u.buildpower, u.buildtime, u.m_build_cost, u.e_build_cost,
   u.e_cost_per_second, u.e_per_second, u.wind_e_per_second, u.e_storage,
   u.m_per_second, u.m_storage, u.build_options)

/-! ## Concrete scenario states -/

/- `Rat.add`, `Rat.mul`, `Rat.sub` and `Rat.inv` are `irreducible` by
default, which blocks the `decide` tactic's evaluation of concrete
scenarios (the kernel itself reduces them fine); restore the default
transparency for this file. -/
attribute [local semireducible] Rat.add Rat.mul Rat.sub Rat.inv

/-- Metal-extractor template of `tests::test_double_mex`: `m_storage = 50`,
`e_cost_per_second = 3`, `m_per_second = 3`. -/
def mexTemplate : Unit' :=
  { Unit'.new_unconstructed 1 1 1 with
      m_storage := 50, e_cost_per_second := 3, m_per_second := 3 }

/-- The double-metal-extractor start exactly as the claim words it: the
state of `GameState::new` on default world parameters (so `metal = 1000`),
the global energy pool set to `28`, and two completed metal extractors. -/
def c2_s0 : GameState :=
  { GameState.new WorldParams.default with
      energy := 28,
      units := [mexTemplate.construct, mexTemplate.construct],
      unit_catalog := [(("mex"), mexTemplate)] }

/-- The double-metal-extractor start with the global metal pool at its
settled baseline `500` (what the test reaches by an initial `simulate(2.0)`
that clamps the default `1000` down to base storage). -/
def c2_s1 : GameState := { c2_s0 with metal := 500 }

/-- Builder for the affordability counterexample: alive, `buildpower = 1`,
building unit index `1`. -/
def c1_builder : Unit' :=
  { Unit'.new_unconstructed 0 0 1 with
      alive := true, buildpower := 1, build_target := some 1 }

/-- Target for the affordability counterexample: build costs `10`/`10`,
`buildtime = 1`, already `9`/`10` banked. -/
def c1_target : Unit' := { Unit'.new_unconstructed 10 10 1 with metal := 9, energy := 9 }

/-- State for the affordability counterexample: global pools `1/2`/`1/2`,
far below the tick's build costs of `1`/`1`. -/
def c1_s0 : GameState :=
  { GameState.new WorldParams.default with
      energy := 1 / 2, metal := 1 / 2, units := [c1_builder, c1_target] }

/-- Fresh target for the affordable-build witness: build costs `10`/`10`,
`buildtime = 1`, nothing banked yet. -/
def c1_w_target : Unit' := Unit'.new_unconstructed 10 10 1

/-- State for the affordable-build witness: the builder of `c1_s0` with
ample global pools (`100`/`100`), so the affordability gate passes. -/
def c1_w_s0 : GameState :=
  { GameState.new WorldParams.default with
      energy := 100, metal := 100, units := [c1_builder, c1_w_target] }

/-- Commander template of `tests::test_build_power`: storage `500`/`500`,
`buildpower = 300`. -/
def c6_com : Unit' :=
  { Unit'.new_unconstructed 1 1 1 with
      m_storage := 500, e_storage := 500, buildpower := 300 }

/-- Incomplete wind-generator template of `tests::test_build_power`: costs
`(m = 40, e = 175)`, `buildtime = 1600`. -/
def c6_wind : Unit' :=
  { Unit'.new_unconstructed 40 175 1600 with wind_e_per_second := 25, e_storage := 100 }

/-- Build-completion scenario: completed commander ordered to build the
non-alive wind generator at index `1`, pools `500`/`500`. -/
def c6_s0 : GameState :=
  { GameState.new WorldParams.default with
      wind_strength := 20, energy := 500, metal := 500,
      units := [{ c6_com.construct with build_target := some 1 }, c6_wind],
      unit_catalog := [(("commander"), c6_com), (("wind"), c6_wind)] }

/-- The half-completion step `0.5 * 1600 / 300` of the build scenario. -/
def c6_dt : ℚ := 1 / 2 * (1600 / 300)

/-- Wind template of `tests::test_double_wind`: `wind_e_per_second = 25`,
`e_storage = 100`. -/
def c7_windTemplate : Unit' :=
  { Unit'.new_unconstructed 1 1 1 with wind_e_per_second := 25, e_storage := 100 }

/-- Double-wind scenario: `wind_strength = 8`, two completed wind units,
pools settled at `500`/`500`. -/
def c7_s0 : GameState :=
  { GameState.new WorldParams.default with
      wind_strength := 8, energy := 500, metal := 500,
      units := [c7_windTemplate.construct, c7_windTemplate.construct],
      unit_catalog := [(("wind"), c7_windTemplate)] }

/-- State with non-negative pools, no units, and a negative base metal
storage, for the non-negativity counterexample. -/
def c4_s0 : GameState :=
  { GameState.new { WorldParams.default with base_metal_storage := -1 } with
      energy := 0, metal := 0 }

/-- Commander instance used by the capability-gate scenario. -/
def c8_com : Unit' :=
  { Unit'.new_unconstructed 1 1 1 with
      m_storage := 500, e_storage := 500, buildpower := 300 }

/-- Wind template registered in the capability-gate scenario's catalog. -/
def c8_wind : Unit' :=
  { Unit'.new_unconstructed 40 175 1600 with wind_e_per_second := 25, e_storage := 100 }

/-- Capability-gate scenario before the capability is granted: the
commander's `build_options` does not contain the registered name. -/
def c8_sA : GameState :=
  { GameState.new WorldParams.default with
      units := [c8_com.construct],
      unit_catalog := [(("wind"), c8_wind)] }

/-- Capability-gate scenario after granting the capability. -/
def c8_sB : GameState :=
  { c8_sA with units := [{ c8_com.construct with build_options := [("wind")] }] }

/-- Definition field map for the negative-`energyupkeep` witness:
`energymake = 2`, `energyupkeep = -5`. -/
def c9_defs : List (String × LuaVal) :=
  [(("buildtime"), LuaVal.num 100), (("metalcost"), LuaVal.num 10),
   (("energycost"), LuaVal.num 20), (("energymake"), LuaVal.num 2),
   (("energyupkeep"), LuaVal.num (-5))]

/-- The unit `parse_definition` produces from `c9_defs`: upkeep zeroed and
its magnitude added onto `energymake`. -/
def c9_u : Unit' :=
  { name := "Unknown"
    alive := false
    metal := 0
    energy := 0
    buildpower := 0
    build_target := none
    buildtime := 100
    m_build_cost := 10
    e_build_cost := 20
    e_cost_per_second := 0
    e_per_second := 7
    wind_e_per_second := 0
    e_storage := 0
    m_per_second := 0
    m_storage := 0
    build_options := [] }

/-- State with empty unit list and pools equal to the base storages, used
as witness input for zero-dt idempotence. -/
def c3_w : GameState :=
  { GameState.new WorldParams.default with energy := 500, metal := 500 }

/-- State with empty unit list and zero pools, used as witness input for
non-negativity. -/
def c4_w : GameState :=
  { GameState.new WorldParams.default with energy := 0, metal := 0 }

/-! ## Claim theorems settled by direct evaluation -/

/-- C2 counterexample: starting, as the claim states, from `WorldParams`
defaults (hence a global metal pool of `1000`) with energy set to `28` and
two completed metal extractors, `simulate(4.0)` yields `energy = 4` but
`metal = 600` (the two extractors raise `1024` of metal, clamped to the
`600` storage cap), not `524` as claimed. -/
theorem c2_counterexample :
    (c2_s0.simulate 4).energy = 4 ∧
    (c2_s0.simulate 4).metal = 600 ∧
    ¬ (c2_s0.simulate 4).metal = 524 := by decide

/-- C2 (amended): with the global metal pool at its settled baseline `500`
(the test reaches it by an initial `simulate(2.0)` clamp before the
extractors exist), the claimed trajectory holds: `simulate(4.0)` gives
`(energy, metal) = (4, 524)`, a further `simulate(1.0)` serves only the
first-listed extractor giving `(1, 527)`, and a further `simulate(1.0)`
stalls fully, leaving `(1, 527)`. -/
theorem c2_theorem :
    (c2_s1.simulate 4).energy = 4 ∧
    (c2_s1.simulate 4).metal = 524 ∧
    ((c2_s1.simulate 4).simulate 1).energy = 1 ∧
    ((c2_s1.simulate 4).simulate 1).metal = 527 ∧
    (((c2_s1.simulate 4).simulate 1).simulate 1).energy = 1 ∧
    (((c2_s1.simulate 4).simulate 1).simulate 1).metal = 527 := by decide

/-- C3 counterexample: the claim fails already on the state `GameState::new`
builds from default world parameters, where both pools start at `1000`
above the `500` base storage caps: `simulate(0.0)` clamps both pools to
`500`, so `energy` and `metal` do change. -/
theorem c3_counterexample :
    (GameState.new WorldParams.default).metal = 1000 ∧
    (GameState.new WorldParams.default).energy = 1000 ∧
    ((GameState.new WorldParams.default).simulate 0).metal = 500 ∧
    ((GameState.new WorldParams.default).simulate 0).energy = 500 := by decide

/-- C4 counterexample: a state satisfying all of the claim's hypotheses —
non-negative global pools and (vacuously, the unit list being empty)
non-negative unit rate fields — on which `simulate(1.0)` drives the metal
pool negative, because the storage clamp pulls it down to the negative
base metal storage. -/
theorem c4_counterexample :
    0 ≤ c4_s0.metal ∧ 0 ≤ c4_s0.energy ∧ c4_s0.units = [] ∧ (0 : ℚ) ≤ 1 ∧
    (c4_s0.simulate 1).metal < 0 := by decide

/-- C6: build completion exactness.  With a completed builder of
`buildpower = 300` targeting the non-alive unit of costs
`(m = 40, e = 175, buildtime = 1600)` at index `1` and pools `500`/`500`,
after `simulate(0.5 * 1600/300)` the target is not alive, holds exactly
half of each build cost, and the same amounts are deducted from the global
pools; after one further step of equal size the target is alive with fully
banked resources and the builder's `build_target` is `None`. -/
theorem c6_theorem :
    ((c6_s0.simulate c6_dt).units.getD 1 default).alive = false ∧
    ((c6_s0.simulate c6_dt).units.getD 1 default).metal = 40 * (1 / 2) ∧
    ((c6_s0.simulate c6_dt).units.getD 1 default).energy = 175 * (1 / 2) ∧
    (c6_s0.simulate c6_dt).metal = 500 - 40 * (1 / 2) ∧
    (c6_s0.simulate c6_dt).energy = 500 - 175 * (1 / 2) ∧
    (((c6_s0.simulate c6_dt).simulate c6_dt).units.getD 1 default).alive = true ∧
    (((c6_s0.simulate c6_dt).simulate c6_dt).units.getD 1 default).metal = 40 ∧
    (((c6_s0.simulate c6_dt).simulate c6_dt).units.getD 1 default).energy = 175 ∧
    (((c6_s0.simulate c6_dt).simulate c6_dt).units.getD 0 default).build_target = none := by
  decide

/-- C1 counterexample: in `c1_s0` the tick's build costs are `1`/`1` while
the global pools hold only `1/2`/`1/2`, so the affordability gate fails and
no resources are deducted — yet `simulate(1.0)` still *constructs* the
target on behalf of the builder (the completion check runs regardless of
affordability): the target flips to alive and its banked metal jumps from
`9` to its full build cost `10`.  The builder is therefore not "skipped
entirely" and the target does progress. -/
theorem c1_counterexample :
    ¬ build_m_cost 1 c1_builder c1_target < c1_s0.metal ∧
    ¬ build_e_cost 1 c1_builder c1_target < c1_s0.energy ∧
    (c1_s0.units.getD 0 default) = c1_builder ∧
    (c1_s0.units.getD 1 default) = c1_target ∧
    c1_target.alive = false ∧
    c1_target.metal = 9 ∧
    ((c1_s0.simulate 1).units.getD 1 default).alive = true ∧
    ((c1_s0.simulate 1).units.getD 1 default).metal = 10 ∧
    (c1_s0.simulate 1).metal = c1_s0.metal ∧
    (c1_s0.simulate 1).energy = c1_s0.energy := by decide

/-! ## Bridging lemmas and fold characterisations -/

/-- `f32_min` is the lattice `min`. -/
theorem f32_min_eq (a b : ℚ) : f32_min a b = min a b := by
  simp [f32_min, min_def]

/-- `f32_abs` is the lattice absolute value. -/
theorem f32_abs_eq (a : ℚ) : f32_abs a = |a| := by
  by_cases h : 0 ≤ a
  · simp [f32_abs, h, abs_of_nonneg h]
  · simp [f32_abs, h, abs_of_neg (lt_of_not_le h)]

/-- The production fold adds, to the accumulator, the sum over the list of
each alive unit's individual contribution. -/
theorem foldl_production (dt ws : ℚ) :
    ∀ (l : List Unit') (a : ℚ),
      l.foldl
        (fun e u =>
          if u.alive then e + dt * u.e_per_second + dt * f32_min u.wind_e_per_second ws else e)
        a
      = a + (l.map fun u =>
          if u.alive then dt * u.e_per_second + dt * f32_min u.wind_e_per_second ws else 0).sum := by
  intro l
  induction l with
  | nil => intro a; simp
  | cons u l ih =>
      intro a
      by_cases h : u.alive
      · simp [h, ih]; ring
      · simp [h, ih]

/-- A fold that conditionally accumulates `g u` over a list equals the
starting value plus the sum of the per-element contributions. -/
theorem foldl_if_add (g : Unit' → ℚ) :
    ∀ (l : List Unit') (a : ℚ),
      l.foldl (fun acc u => if u.alive then acc + g u else acc) a
      = a + (l.map fun u => if u.alive then g u else 0).sum := by
  intro l
  induction l with
  | nil => intro a; simp
  | cons u l ih =>
      intro a
      by_cases h : u.alive
      · simp [h, ih]; ring
      · simp [h, ih]

/-- `metal_storage` as base plus a sum over alive units. -/
theorem metal_storage_eq (s : GameState) :
    s.metal_storage
      = s.world_params.base_metal_storage
        + (s.units.map fun u => if u.alive then u.m_storage else 0).sum :=
  foldl_if_add (fun u => u.m_storage) s.units s.world_params.base_metal_storage

/-- `energy_storage` as base plus a sum over alive units. -/
theorem energy_storage_eq (s : GameState) :
    s.energy_storage
      = s.world_params.base_energy_storage
        + (s.units.map fun u => if u.alive then u.e_storage else 0).sum :=
  foldl_if_add (fun u => u.e_storage) s.units s.world_params.base_energy_storage

/-- C5: the storage clamp.  The storage caps are the world base plus the
sum of the alive units' storage contributions, and after any `simulate`
call the global pools are at most the caps computed on the resulting
state (the clamp is the last resource update of the tick and the unit
list does not change afterwards). -/
theorem c5_theorem :
    (∀ s : GameState,
       s.metal_storage
         = s.world_params.base_metal_storage
           + (s.units.map fun u => if u.alive then u.m_storage else 0).sum) ∧
    (∀ s : GameState,
       s.energy_storage
         = s.world_params.base_energy_storage
           + (s.units.map fun u => if u.alive then u.e_storage else 0).sum) ∧
    (∀ (dt : ℚ) (s : GameState),
       (s.simulate dt).energy ≤ (s.simulate dt).energy_storage ∧
       (s.simulate dt).metal ≤ (s.simulate dt).metal_storage) := by
  refine ⟨metal_storage_eq, energy_storage_eq, fun dt s => ⟨?_, ?_⟩⟩
  · show f32_min _ _ ≤ _
    rw [f32_min_eq]
    exact min_le_right _ _
  · show f32_min _ _ ≤ _
    rw [f32_min_eq]
    exact min_le_right _ _

/-- C7: independent wind capping.  In the production pass every alive
unit contributes `dt * min wind_e_per_second wind_strength` (plus its
`dt * e_per_second`) to the global energy pool, each unit capped
independently against the global wind strength; concretely, in the
double-wind scenario (`wind_strength = 8`, two completed units with
`wind_e_per_second = 25`, `e_storage = 100`, pools settled at `500`),
`simulate(2.0)` yields `energy = 532`. -/
theorem c7_theorem :
    (∀ (dt : ℚ) (s : GameState),
       (GameState.productionPass dt s).energy
         = s.energy
           + (s.units.map fun u =>
               if u.alive then
                 dt * u.e_per_second + dt * min u.wind_e_per_second s.wind_strength
               else 0).sum) ∧
    (c7_s0.simulate 2).energy = 532 := by
  constructor
  · intro dt s
    have h := foldl_production dt s.wind_strength s.units s.energy
    simp only [f32_min_eq] at h
    exact h
  · decide

/-! ## List index lemmas -/

/-- `getD` after `set` at the same in-range index yields the new value. -/
theorem getD_set_self {α : Type} (l : List α) (n : Nat) (v d : α) (h : n < l.length) :
    (l.set n v).getD n d = v := by
  induction l generalizing n with
  | nil => simp at h
  | cons a l ih =>
      cases n with
      | zero => rfl
      | succ n => exact ih n (Nat.lt_of_succ_lt_succ h)

/-- `getD` after `set` at a different index is unchanged. -/
theorem getD_set_ne {α : Type} (l : List α) (n m : Nat) (v d : α) (h : n ≠ m) :
    (l.set n v).getD m d = l.getD m d := by
  induction l generalizing n m with
  | nil => rfl
  | cons a l ih =>
      cases n with
      | zero =>
          cases m with
          | zero => exact absurd rfl h
          | succ m => rfl
      | succ n =>
          cases m with
          | zero => rfl
          | succ m => exact ih n m (fun e => h (by rw [e]))

/-- `getD` at the length of the prefix of a one-element append. -/
theorem getD_append_self {α : Type} (l : List α) (u d : α) :
    (l ++ [u]).getD l.length d = u := by
  induction l with
  | nil => rfl
  | cons a l ih => exact ih

/-- `getD` out of range yields the default. -/
theorem getD_len_le {α : Type} (l : List α) (n : Nat) (d : α) (h : l.length ≤ n) :
    l.getD n d = d := by
  induction l generalizing n with
  | nil => cases n <;> rfl
  | cons a l ih =>
      cases n with
      | zero => simp at h
      | succ n => exact ih n (Nat.le_of_succ_le_succ h)

/-- Setting an index to the value it already holds is the identity. -/
theorem set_getD_self_eq {α : Type} (l : List α) (n : Nat) (d : α) :
    l.set n (l.getD n d) = l := by
  induction l generalizing n with
  | nil => rfl
  | cons a l ih =>
      cases n with
      | zero => rfl
      | succ n => exact congrArg (List.cons a) (ih n)

/-- `getD` commutes with `map`. -/
theorem getD_map {α β : Type} (f : α → β) (l : List α) (n : Nat) (d : α) :
    (l.map f).getD n (f d) = f (l.getD n d) := by
  induction l generalizing n with
  | nil => rfl
  | cons a l ih =>
      cases n with
      | zero => rfl
      | succ n => exact ih n

/-- `map` commutes with `set`. -/
theorem map_set {α β : Type} (f : α → β) (l : List α) (n : Nat) (v : α) :
    (l.set n v).map f = (l.map f).set n (f v) := by
  induction l generalizing n with
  | nil => rfl
  | cons a l ih =>
      cases n with
      | zero => rfl
      | succ n => exact congrArg (List.cons (f a)) (ih n)

/-- Setting an index to a value with the same `f`-image leaves the mapped
list unchanged. -/
theorem map_set_frame {α β : Type} [Inhabited α] (f : α → β) (l : List α) (n : Nat) (v : α)
    (h : f v = f (l.getD n default)) : (l.set n v).map f = l.map f := by
  rw [map_set, h, ← getD_map f l n default, set_getD_self_eq]

/-! ## C8: capability gate of build_unit -/

/-- C8: `build_unit` fails with the capability error when the builder's
`build_options` does not contain the requested name, leaving the unit list
length and the builder's `build_target` unchanged; when the name is in the
builder's `build_options` and in the catalog (with `u` the registered
template), the call returns the old list length as the new index, appends
exactly that one cloned template, and points the builder's `build_target`
at it. -/
theorem c8_theorem (s : GameState) (b : Nat) (nm : String) (u : Unit') :
    (nm ∉ (s.units.getD b default).build_options →
       (s.build_unit b nm).2 = Except.error (cannotBuildMsg nm) ∧
       (s.build_unit b nm).1.units.length = s.units.length ∧
       ((s.build_unit b nm).1.units.getD b default).build_target
         = (s.units.getD b default).build_target) ∧
    (nm ∈ (s.units.getD b default).build_options →
     lookupCatalog s.unit_catalog nm = some u →
     b < s.units.length →
       (s.build_unit b nm).2 = Except.ok s.units.length ∧
       (s.build_unit b nm).1.units.length = s.units.length + 1 ∧
       ((s.build_unit b nm).1.units.getD b default).build_target = some s.units.length ∧
       (s.build_unit b nm).1.units.getD s.units.length default = u) := by
  constructor
  · intro h
    unfold GameState.build_unit
    rw [if_neg h]
    exact ⟨rfl, rfl, rfl⟩
  · intro hmem hcat hb
    unfold GameState.build_unit GameState.add_unit
    rw [if_pos hmem, hcat]
    refine ⟨rfl, ?_, ?_, ?_⟩
    · simp
    · have hlt : b < (s.units ++ [u]).length := by
        simp only [List.length_append, List.length_cons, List.length_nil]
        omega
      rw [getD_set_self _ _ _ _ hlt]
    · rw [getD_set_ne _ _ _ _ _ (Nat.ne_of_lt hb), getD_append_self]

/-- Witness for C8 at the concrete capability-gate scenario: the commander
without the capability gets the error with nothing changed; with the
capability granted, the same call appends the wind template at index `1`
and records it as the commander's build target. -/
theorem c8_witness :
    ((c8_sA.build_unit 0 ("wind")).2 = Except.error (cannotBuildMsg ("wind")) ∧
     (c8_sA.build_unit 0 ("wind")).1.units.length = c8_sA.units.length ∧
     ((c8_sA.build_unit 0 ("wind")).1.units.getD 0 default).build_target
       = (c8_sA.units.getD 0 default).build_target) ∧
    ((c8_sB.build_unit 0 ("wind")).2 = Except.ok c8_sB.units.length ∧
     (c8_sB.build_unit 0 ("wind")).1.units.length = c8_sB.units.length + 1 ∧
     ((c8_sB.build_unit 0 ("wind")).1.units.getD 0 default).build_target
       = some c8_sB.units.length ∧
     (c8_sB.build_unit 0 ("wind")).1.units.getD c8_sB.units.length default = c8_wind) :=
  ⟨(c8_theorem c8_sA 0 ("wind") c8_wind).1 (by decide),
   (c8_theorem c8_sB 0 ("wind") c8_wind).2 (by decide) (by decide) (by decide)⟩

/-! ## C9: negative energyupkeep reinterpretation -/

/-- C9: for any definition field map that parses successfully, with
`energyupkeep` reading as `c` (default `0`) and `energymake` reading as `m`
(default `0`): a negative upkeep `c` is zeroed and its magnitude `-c` is
added to the produced unit's `e_per_second`, while a non-negative upkeep is
taken as `e_cost_per_second` unchanged with `e_per_second = m`. -/
theorem c9_theorem (defs0 defs : List (String × LuaVal)) (c m : ℚ) (u : Unit')
    (h1 : unwrapDefs defs0 = Except.ok defs)
    (h2 : get_float_or defs ("energyupkeep") 0 = Except.ok c)
    (h3 : get_float_or defs ("energymake") 0 = Except.ok m)
    (h4 : parse_definition defs0 = Except.ok u) :
    (c < 0 → u.e_cost_per_second = 0 ∧ u.e_per_second = m + (-c)) ∧
    (0 ≤ c → u.e_cost_per_second = c ∧ u.e_per_second = m) := by
  unfold parse_definition at h4
  simp only [h1] at h4
  unfold parse_fields at h4
  simp only [h2, h3] at h4
  cases hname : get_string_or defs ("name") ("Unknown") with
  | error e => simp only [hname] at h4; exact Except.noConfusion h4
  | ok name =>
  simp only [hname] at h4
  cases hbt : get_float defs ("buildtime") with
  | error e => simp only [hbt] at h4; exact Except.noConfusion h4
  | ok buildtime =>
  simp only [hbt] at h4
  cases hmc : get_float defs ("metalcost") with
  | error e => simp only [hmc] at h4; exact Except.noConfusion h4
  | ok m_build_cost =>
  simp only [hmc] at h4
  cases hec : get_float defs ("energycost") with
  | error e => simp only [hec] at h4; exact Except.noConfusion h4
  | ok e_build_cost =>
  simp only [hec] at h4
  cases hwt : get_float_or defs ("workertime") 0 with
  | error e => simp only [hwt] at h4; exact Except.noConfusion h4
  | ok buildpower =>
  simp only [hwt] at h4
  cases hwg : get_float_or defs ("windgenerator") 0 with
  | error e => simp only [hwg] at h4; exact Except.noConfusion h4
  | ok wind_e =>
  simp only [hwg] at h4
  cases hes : get_float_or defs ("energystorage") 0 with
  | error e => simp only [hes] at h4; exact Except.noConfusion h4
  | ok e_storage =>
  simp only [hes] at h4
  cases hmm : get_float_or defs ("metalmake") 0 with
  | error e => simp only [hmm] at h4; exact Except.noConfusion h4
  | ok m_per_second =>
  simp only [hmm] at h4
  cases hms : get_float_or defs ("metalstorage") 0 with
  | error e => simp only [hms] at h4; exact Except.noConfusion h4
  | ok m_storage =>
  simp only [hms] at h4
  simp only [Except.ok.injEq] at h4
  constructor
  · intro hc
    rw [← h4]
    simp only [if_pos hc]
    exact ⟨trivial, by ring⟩
  · intro hc
    rw [← h4]
    simp only [if_neg (not_lt.mpr hc)]
    exact ⟨trivial, trivial⟩

/-- Witness for C9 at a concrete definition map with `energyupkeep = -5`
and `energymake = 2`: the parsed unit `c9_u` has upkeep `0` and
`e_per_second = 7`. -/
theorem c9_witness :
    (((-5 : ℚ) < 0 → c9_u.e_cost_per_second = 0 ∧ c9_u.e_per_second = 2 + (-(-5 : ℚ))) ∧
     ((0 : ℚ) ≤ -5 → c9_u.e_cost_per_second = -5 ∧ c9_u.e_per_second = 2)) :=
  c9_theorem c9_defs c9_defs (-5) 2 c9_u rfl rfl rfl rfl

/-! ## Frame of the tick -/

/-- One build-pass iteration preserves the mapped frame fields of every
unit (it only ever rewrites `metal`, `energy`, `alive`, `build_target`)
and leaves catalog, world parameters, wind strength and time alone. -/
theorem buildStep_frame (dt : ℚ) (s : GameState) (i : Nat) :
    (GameState.buildStep dt s i).units.map frameFields = s.units.map frameFields ∧
    (GameState.buildStep dt s i).unit_catalog = s.unit_catalog ∧
    (GameState.buildStep dt s i).world_params = s.world_params ∧
    (GameState.buildStep dt s i).wind_strength = s.wind_strength ∧
    (GameState.buildStep dt s i).time = s.time := by
  simp only [GameState.buildStep]
  repeat' split
  all_goals refine ⟨?_, rfl, rfl, rfl, rfl⟩
  all_goals repeat rw [map_set_frame frameFields _ _ _ (by rfl)]
  all_goals rfl

/-- Folding build-pass iterations preserves any invariant each single
iteration preserves. -/
theorem foldl_buildStep_pres (dt : ℚ) (P : GameState → Prop)
    (h : ∀ s i, P s → P (GameState.buildStep dt s i)) :
    ∀ (l : List Nat) (s : GameState), P s → P (l.foldl (GameState.buildStep dt) s) := by
  intro l
  induction l with
  | nil => intro s hs; exact hs
  | cons a l ih => intro s hs; exact ih (GameState.buildStep dt s a) (h s a hs)

/-- The whole build pass preserves the mapped frame fields, catalog, world
parameters, wind strength and time. -/
theorem buildPass_frame (dt : ℚ) (s : GameState) :
    (GameState.buildPass dt s).units.map frameFields = s.units.map frameFields ∧
    (GameState.buildPass dt s).unit_catalog = s.unit_catalog ∧
    (GameState.buildPass dt s).world_params = s.world_params ∧
    (GameState.buildPass dt s).wind_strength = s.wind_strength ∧
    (GameState.buildPass dt s).time = s.time := by
  refine foldl_buildStep_pres dt
    (fun s2 =>
      s2.units.map frameFields = s.units.map frameFields ∧
      s2.unit_catalog = s.unit_catalog ∧
      s2.world_params = s.world_params ∧
      s2.wind_strength = s.wind_strength ∧
      s2.time = s.time)
    ?_ (List.range s.units.length) s ⟨rfl, rfl, rfl, rfl, rfl⟩
  intro s2 j hs2
  obtain ⟨f1, f2, f3, f4, f5⟩ := buildStep_frame dt s2 j
  exact ⟨f1.trans hs2.1, f2.trans hs2.2.1, f3.trans hs2.2.2.1,
         f4.trans hs2.2.2.2.1, f5.trans hs2.2.2.2.2⟩

/-- `simulate` preserves the mapped frame fields of the unit list, the
catalog, the world parameters and the wind strength (the production and
consumption passes touch only the pools, the clamp touches only pools and
time). -/
theorem simulate_frame (dt : ℚ) (s : GameState) :
    (s.simulate dt).units.map frameFields = s.units.map frameFields ∧
    (s.simulate dt).unit_catalog = s.unit_catalog ∧
    (s.simulate dt).world_params = s.world_params ∧
    (s.simulate dt).wind_strength = s.wind_strength := by
  have h := buildPass_frame dt (GameState.consumptionPass dt (GameState.productionPass dt s))
  exact ⟨h.1, h.2.1, h.2.2.1, h.2.2.2.1⟩

/-- Equality of `frameFields` tuples gives equality of every frame field. -/
theorem frameFields_fields {u v : Unit'} (h : frameFields u = frameFields v) :
    u.name = v.name ∧ u.buildpower = v.buildpower ∧ u.buildtime = v.buildtime ∧
    u.m_build_cost = v.m_build_cost ∧ u.e_build_cost = v.e_build_cost ∧
    u.e_cost_per_second = v.e_cost_per_second ∧ u.e_per_second = v.e_per_second ∧
    u.wind_e_per_second = v.wind_e_per_second ∧ u.e_storage = v.e_storage ∧
    u.m_per_second = v.m_per_second ∧ u.m_storage = v.m_storage ∧
    u.build_options = v.build_options := by
  simp only [frameFields, Prod.mk.injEq] at h
  exact h

/-- C10: the implicit frame of the tick.  For every state and every `dt`,
`simulate(dt)` leaves `unit_catalog`, `world_params` and `wind_strength`
unchanged, neither adds nor removes units, and changes at most the
`metal`, `energy`, `alive` and `build_target` fields of each unit: name,
buildpower, buildtime, build costs, production/consumption rates, storage
contributions and build options of every unit are unchanged (stated via
`getD`, which also covers out-of-range indices trivially). -/
theorem c10_theorem : ∀ (dt : ℚ) (s : GameState),
    (s.simulate dt).unit_catalog = s.unit_catalog ∧
    (s.simulate dt).world_params = s.world_params ∧
    (s.simulate dt).wind_strength = s.wind_strength ∧
    (s.simulate dt).units.length = s.units.length ∧
    ∀ i : Nat,
      ((s.simulate dt).units.getD i default).name = (s.units.getD i default).name ∧
      ((s.simulate dt).units.getD i default).buildpower = (s.units.getD i default).buildpower ∧
      ((s.simulate dt).units.getD i default).buildtime = (s.units.getD i default).buildtime ∧
      ((s.simulate dt).units.getD i default).m_build_cost
        = (s.units.getD i default).m_build_cost ∧
      ((s.simulate dt).units.getD i default).e_build_cost
        = (s.units.getD i default).e_build_cost ∧
      ((s.simulate dt).units.getD i default).e_cost_per_second
        = (s.units.getD i default).e_cost_per_second ∧
      ((s.simulate dt).units.getD i default).e_per_second
        = (s.units.getD i default).e_per_second ∧
      ((s.simulate dt).units.getD i default).wind_e_per_second
        = (s.units.getD i default).wind_e_per_second ∧
      ((s.simulate dt).units.getD i default).e_storage = (s.units.getD i default).e_storage ∧
      ((s.simulate dt).units.getD i default).m_per_second
        = (s.units.getD i default).m_per_second ∧
      ((s.simulate dt).units.getD i default).m_storage = (s.units.getD i default).m_storage ∧
      ((s.simulate dt).units.getD i default).build_options
        = (s.units.getD i default).build_options := by
  intro dt s
  obtain ⟨hmap, hcat, hwp, hws⟩ := simulate_frame dt s
  refine ⟨hcat, hwp, hws, ?_, ?_⟩
  · have h := congrArg List.length hmap
    simpa using h
  · intro j
    have h1 : frameFields ((s.simulate dt).units.getD j default)
        = frameFields (s.units.getD j default) := by
      rw [← getD_map frameFields _ j default, ← getD_map frameFields _ j default, hmap]
    exact frameFields_fields h1

/-! ## C1 (amended): affordability gating of the build-progress pass -/

/-- C1 (amended): in the build-progress pass, for a builder `i` that is
alive with `build_target = some t` (in range): exactly when both global
pools exceed the tick's build costs, the pools are deducted by
`build_m_cost`/`build_e_cost` and (unless the completion check also fires
and overwrites them) the same amounts are credited to the target's banked
resources, with the target's `alive` flag and the builder's `build_target`
untouched; when either pool cannot afford its cost, no deduction and no
credit occurs.  Independently of affordability, whenever the clamped
build step equals the remaining fraction within `f32_eps`, the target is
constructed (banked resources set to the full build costs, alive set) and
the builder's `build_target` is cleared; only when affordability and the
completion check both fail is the builder's iteration a complete no-op. -/
theorem c1_theorem (dt : ℚ) (s : GameState) (t i : Nat)
    (halive : (s.units.getD i default).alive = true)
    (htarget : (s.units.getD i default).build_target = some t)
    (ht : t < s.units.length) :
    (build_m_cost dt (s.units.getD i default) (s.units.getD t default) < s.metal ∧
     build_e_cost dt (s.units.getD i default) (s.units.getD t default) < s.energy →
      (GameState.buildStep dt s i).metal = s.metal - build_m_cost dt (s.units.getD i default) (s.units.getD t default) ∧
      (GameState.buildStep dt s i).energy = s.energy - build_e_cost dt (s.units.getD i default) (s.units.getD t default)) ∧
    (build_m_cost dt (s.units.getD i default) (s.units.getD t default) < s.metal ∧
     build_e_cost dt (s.units.getD i default) (s.units.getD t default) < s.energy →
     ¬ f32_abs (build_step_amt dt (s.units.getD i default) (s.units.getD t default)
        - build_remaining (s.units.getD t default)) ≤ f32_eps →
      ((GameState.buildStep dt s i).units.getD t default).metal
        = (s.units.getD t default).metal + build_m_cost dt (s.units.getD i default) (s.units.getD t default) ∧
      ((GameState.buildStep dt s i).units.getD t default).energy
        = (s.units.getD t default).energy + build_e_cost dt (s.units.getD i default) (s.units.getD t default) ∧
      ((GameState.buildStep dt s i).units.getD t default).alive = (s.units.getD t default).alive ∧
      ((GameState.buildStep dt s i).units.getD i default).build_target = some t) ∧
    (f32_abs (build_step_amt dt (s.units.getD i default) (s.units.getD t default)
        - build_remaining (s.units.getD t default)) ≤ f32_eps →
      ((GameState.buildStep dt s i).units.getD t default).alive = true ∧
      ((GameState.buildStep dt s i).units.getD t default).metal = (s.units.getD t default).m_build_cost ∧
      ((GameState.buildStep dt s i).units.getD t default).energy = (s.units.getD t default).e_build_cost ∧
      ((GameState.buildStep dt s i).units.getD i default).build_target = none) ∧
    (¬ (build_m_cost dt (s.units.getD i default) (s.units.getD t default) < s.metal ∧
        build_e_cost dt (s.units.getD i default) (s.units.getD t default) < s.energy) →
      (GameState.buildStep dt s i).metal = s.metal ∧
      (GameState.buildStep dt s i).energy = s.energy ∧
      (¬ f32_abs (build_step_amt dt (s.units.getD i default) (s.units.getD t default)
        - build_remaining (s.units.getD t default)) ≤ f32_eps →
        GameState.buildStep dt s i = s)) := by
  have hi : i < s.units.length := by
    by_contra hle
    push_neg at hle
    rw [getD_len_le _ _ _ hle] at htarget
    have hd : (default : Unit').build_target = none := rfl
    rw [hd] at htarget
    exact Option.noConfusion htarget
  simp only [GameState.buildStep, htarget, halive, if_true]
  by_cases hgate : build_m_cost dt (s.units.getD i default) (s.units.getD t default) < s.metal ∧
      build_e_cost dt (s.units.getD i default) (s.units.getD t default) < s.energy
  · rw [if_pos hgate]
    by_cases htol : f32_abs (build_step_amt dt (s.units.getD i default) (s.units.getD t default)
        - build_remaining (s.units.getD t default)) ≤ f32_eps
    · rw [if_pos htol]
      refine ⟨fun _ => ⟨rfl, rfl⟩, fun _ h => absurd htol h, fun _ => ?_,
        fun h => absurd hgate h⟩
      by_cases hit : i = t
      · subst hit
        refine ⟨?_, ?_, ?_, ?_⟩
        · rw [getD_set_self _ _ _ _ (by simpa using hi),
             getD_set_self _ _ _ _ (by simpa using hi)]
          rfl
        · rw [getD_set_self _ _ _ _ (by simpa using hi),
             getD_set_self _ _ _ _ (by simpa using hi), getD_set_self _ _ _ _ hi]
          rfl
        · rw [getD_set_self _ _ _ _ (by simpa using hi),
             getD_set_self _ _ _ _ (by simpa using hi), getD_set_self _ _ _ _ hi]
          rfl
        · rw [getD_set_self _ _ _ _ (by simpa using hi)]
      · refine ⟨?_, ?_, ?_, ?_⟩
        · rw [getD_set_ne _ _ _ _ _ hit, getD_set_self _ _ _ _ (by simpa using ht)]
          rfl
        · rw [getD_set_ne _ _ _ _ _ hit, getD_set_self _ _ _ _ (by simpa using ht),
             getD_set_self _ _ _ _ ht]
          rfl
        · rw [getD_set_ne _ _ _ _ _ hit, getD_set_self _ _ _ _ (by simpa using ht),
             getD_set_self _ _ _ _ ht]
          rfl
        · rw [getD_set_self _ _ _ _ (by simpa using hi)]
    · rw [if_neg htol]
      refine ⟨fun _ => ⟨rfl, rfl⟩, fun _ _ => ⟨?_, ?_, ?_, ?_⟩, fun h => absurd h htol,
        fun h => absurd hgate h⟩
      · rw [getD_set_self _ _ _ _ ht]
      · rw [getD_set_self _ _ _ _ ht]
      · rw [getD_set_self _ _ _ _ ht]
      · by_cases hit : i = t
        · subst hit
          rw [getD_set_self _ _ _ _ hi]
          exact htarget
        · rw [getD_set_ne _ _ _ _ _ (Ne.symm hit)]
          exact htarget
  · rw [if_neg hgate]
    by_cases htol : f32_abs (build_step_amt dt (s.units.getD i default) (s.units.getD t default)
        - build_remaining (s.units.getD t default)) ≤ f32_eps
    · rw [if_pos htol]
      refine ⟨fun h => absurd h hgate, fun h => absurd h hgate, fun _ => ?_,
        fun _ => ⟨rfl, rfl, fun h => absurd htol h⟩⟩
      by_cases hit : i = t
      · subst hit
        have hlen : i < (s.units.set i ((s.units.getD i default).construct)).length := by
          simpa using hi
        refine ⟨?_, ?_, ?_, ?_⟩
        · rw [getD_set_self _ _ _ _ hlen]
          show ((s.units.set i ((s.units.getD i default).construct)).getD i default).alive = true
          rw [getD_set_self _ _ _ _ hi]
          rfl
        · rw [getD_set_self _ _ _ _ hlen]
          show ((s.units.set i ((s.units.getD i default).construct)).getD i default).metal
            = (s.units.getD i default).m_build_cost
          rw [getD_set_self _ _ _ _ hi]
          rfl
        · rw [getD_set_self _ _ _ _ hlen]
          show ((s.units.set i ((s.units.getD i default).construct)).getD i default).energy
            = (s.units.getD i default).e_build_cost
          rw [getD_set_self _ _ _ _ hi]
          rfl
        · rw [getD_set_self _ _ _ _ hlen]
      · have hlen : i < (s.units.set t ((s.units.getD t default).construct)).length := by
          simpa using hi
        have hlent : t < s.units.length := ht
        refine ⟨?_, ?_, ?_, ?_⟩
        · rw [getD_set_ne _ _ _ _ _ hit, getD_set_self _ _ _ _ hlent]
          rfl
        · rw [getD_set_ne _ _ _ _ _ hit, getD_set_self _ _ _ _ hlent]
          rfl
        · rw [getD_set_ne _ _ _ _ _ hit, getD_set_self _ _ _ _ hlent]
          rfl
        · rw [getD_set_self _ _ _ _ hlen]
    · rw [if_neg htol]
      exact ⟨fun h => absurd h hgate, fun h => absurd h hgate, fun h => absurd h htol,
        fun _ => ⟨rfl, rfl, fun _ => rfl⟩⟩

/-- Witness for C1's amended theorem at two concrete inputs: `c1_w_s0`
with `dt = 1/2`, where the pools (`100`) afford the costs (`5`) and the
completion tolerance fails, so the pools are deducted and the target
credited; and `c1_s0` with `dt = 1`, where the pools (`1/2`) cannot
afford the costs (`1`) yet the completion tolerance holds, so the pools
are untouched while the target is still constructed. -/
theorem c1_witness :
    ((build_m_cost (1 / 2) (c1_w_s0.units.getD 0 default) (c1_w_s0.units.getD 1 default) < c1_w_s0.metal ∧
     build_e_cost (1 / 2) (c1_w_s0.units.getD 0 default) (c1_w_s0.units.getD 1 default) < c1_w_s0.energy →
      (GameState.buildStep (1 / 2) c1_w_s0 0).metal = c1_w_s0.metal - build_m_cost (1 / 2) (c1_w_s0.units.getD 0 default) (c1_w_s0.units.getD 1 default) ∧
      (GameState.buildStep (1 / 2) c1_w_s0 0).energy = c1_w_s0.energy - build_e_cost (1 / 2) (c1_w_s0.units.getD 0 default) (c1_w_s0.units.getD 1 default)) ∧
    (build_m_cost (1 / 2) (c1_w_s0.units.getD 0 default) (c1_w_s0.units.getD 1 default) < c1_w_s0.metal ∧
     build_e_cost (1 / 2) (c1_w_s0.units.getD 0 default) (c1_w_s0.units.getD 1 default) < c1_w_s0.energy →
     ¬ f32_abs (build_step_amt (1 / 2) (c1_w_s0.units.getD 0 default) (c1_w_s0.units.getD 1 default)
        - build_remaining (c1_w_s0.units.getD 1 default)) ≤ f32_eps →
      ((GameState.buildStep (1 / 2) c1_w_s0 0).units.getD 1 default).metal
        = (c1_w_s0.units.getD 1 default).metal + build_m_cost (1 / 2) (c1_w_s0.units.getD 0 default) (c1_w_s0.units.getD 1 default) ∧
      ((GameState.buildStep (1 / 2) c1_w_s0 0).units.getD 1 default).energy
        = (c1_w_s0.units.getD 1 default).energy + build_e_cost (1 / 2) (c1_w_s0.units.getD 0 default) (c1_w_s0.units.getD 1 default) ∧
      ((GameState.buildStep (1 / 2) c1_w_s0 0).units.getD 1 default).alive = (c1_w_s0.units.getD 1 default).alive ∧
      ((GameState.buildStep (1 / 2) c1_w_s0 0).units.getD 0 default).build_target = some 1) ∧
    (f32_abs (build_step_amt (1 / 2) (c1_w_s0.units.getD 0 default) (c1_w_s0.units.getD 1 default)
        - build_remaining (c1_w_s0.units.getD 1 default)) ≤ f32_eps →
      ((GameState.buildStep (1 / 2) c1_w_s0 0).units.getD 1 default).alive = true ∧
      ((GameState.buildStep (1 / 2) c1_w_s0 0).units.getD 1 default).metal = (c1_w_s0.units.getD 1 default).m_build_cost ∧
      ((GameState.buildStep (1 / 2) c1_w_s0 0).units.getD 1 default).energy = (c1_w_s0.units.getD 1 default).e_build_cost ∧
      ((GameState.buildStep (1 / 2) c1_w_s0 0).units.getD 0 default).build_target = none) ∧
    (¬ (build_m_cost (1 / 2) (c1_w_s0.units.getD 0 default) (c1_w_s0.units.getD 1 default) < c1_w_s0.metal ∧
        build_e_cost (1 / 2) (c1_w_s0.units.getD 0 default) (c1_w_s0.units.getD 1 default) < c1_w_s0.energy) →
      (GameState.buildStep (1 / 2) c1_w_s0 0).metal = c1_w_s0.metal ∧
      (GameState.buildStep (1 / 2) c1_w_s0 0).energy = c1_w_s0.energy ∧
      (¬ f32_abs (build_step_amt (1 / 2) (c1_w_s0.units.getD 0 default) (c1_w_s0.units.getD 1 default)
        - build_remaining (c1_w_s0.units.getD 1 default)) ≤ f32_eps →
        GameState.buildStep (1 / 2) c1_w_s0 0 = c1_w_s0))) ∧
    ((build_m_cost 1 (c1_s0.units.getD 0 default) (c1_s0.units.getD 1 default) < c1_s0.metal ∧
     build_e_cost 1 (c1_s0.units.getD 0 default) (c1_s0.units.getD 1 default) < c1_s0.energy →
      (GameState.buildStep 1 c1_s0 0).metal = c1_s0.metal - build_m_cost 1 (c1_s0.units.getD 0 default) (c1_s0.units.getD 1 default) ∧
      (GameState.buildStep 1 c1_s0 0).energy = c1_s0.energy - build_e_cost 1 (c1_s0.units.getD 0 default) (c1_s0.units.getD 1 default)) ∧
    (build_m_cost 1 (c1_s0.units.getD 0 default) (c1_s0.units.getD 1 default) < c1_s0.metal ∧
     build_e_cost 1 (c1_s0.units.getD 0 default) (c1_s0.units.getD 1 default) < c1_s0.energy →
     ¬ f32_abs (build_step_amt 1 (c1_s0.units.getD 0 default) (c1_s0.units.getD 1 default)
        - build_remaining (c1_s0.units.getD 1 default)) ≤ f32_eps →
      ((GameState.buildStep 1 c1_s0 0).units.getD 1 default).metal
        = (c1_s0.units.getD 1 default).metal + build_m_cost 1 (c1_s0.units.getD 0 default) (c1_s0.units.getD 1 default) ∧
      ((GameState.buildStep 1 c1_s0 0).units.getD 1 default).energy
        = (c1_s0.units.getD 1 default).energy + build_e_cost 1 (c1_s0.units.getD 0 default) (c1_s0.units.getD 1 default) ∧
      ((GameState.buildStep 1 c1_s0 0).units.getD 1 default).alive = (c1_s0.units.getD 1 default).alive ∧
      ((GameState.buildStep 1 c1_s0 0).units.getD 0 default).build_target = some 1) ∧
    (f32_abs (build_step_amt 1 (c1_s0.units.getD 0 default) (c1_s0.units.getD 1 default)
        - build_remaining (c1_s0.units.getD 1 default)) ≤ f32_eps →
      ((GameState.buildStep 1 c1_s0 0).units.getD 1 default).alive = true ∧
      ((GameState.buildStep 1 c1_s0 0).units.getD 1 default).metal = (c1_s0.units.getD 1 default).m_build_cost ∧
      ((GameState.buildStep 1 c1_s0 0).units.getD 1 default).energy = (c1_s0.units.getD 1 default).e_build_cost ∧
      ((GameState.buildStep 1 c1_s0 0).units.getD 0 default).build_target = none) ∧
    (¬ (build_m_cost 1 (c1_s0.units.getD 0 default) (c1_s0.units.getD 1 default) < c1_s0.metal ∧
        build_e_cost 1 (c1_s0.units.getD 0 default) (c1_s0.units.getD 1 default) < c1_s0.energy) →
      (GameState.buildStep 1 c1_s0 0).metal = c1_s0.metal ∧
      (GameState.buildStep 1 c1_s0 0).energy = c1_s0.energy ∧
      (¬ f32_abs (build_step_amt 1 (c1_s0.units.getD 0 default) (c1_s0.units.getD 1 default)
        - build_remaining (c1_s0.units.getD 1 default)) ≤ f32_eps →
        GameState.buildStep 1 c1_s0 0 = c1_s0))) :=
  ⟨c1_theorem (1 / 2) c1_w_s0 1 0 (by decide) (by decide) (by decide),
   c1_theorem 1 c1_s0 1 0 (by decide) (by decide) (by decide)⟩

/-! ## C4 (amended): non-negativity of the pools -/

/-- An in-range `getD` is a member of the list. -/
theorem getD_mem {α : Type} (l : List α) (n : Nat) (d : α) (h : n < l.length) :
    l.getD n d ∈ l := by
  induction l generalizing n with
  | nil => simp at h
  | cons a l ih =>
      cases n with
      | zero => exact List.Mem.head l
      | succ n => exact List.Mem.tail a (ih n (Nat.lt_of_succ_lt_succ h))

/-- Replacing an element by one with a larger `g`-value does not decrease
the mapped sum. -/
theorem sum_map_set_le {α : Type} [Inhabited α] (g : α → ℚ) (l : List α) (n : Nat) (v : α)
    (h : g (l.getD n default) ≤ g v) :
    (l.map g).sum ≤ ((l.set n v).map g).sum := by
  induction l generalizing n with
  | nil => simp
  | cons a l ih =>
      cases n with
      | zero =>
          simp only [List.set, List.map, List.sum_cons]
          exact add_le_add h le_rfl
      | succ n =>
          simp only [List.set, List.map, List.sum_cons]
          exact add_le_add le_rfl (ih n h)

/-- The consumption step keeps both pools non-negative when `dt` and the
unit's metal production rate are non-negative. -/
theorem consumeStep_nonneg (dt : ℚ) (hdt : 0 ≤ dt) (u : Unit') (p : ℚ × ℚ)
    (hmp : 0 ≤ u.m_per_second) (h1 : 0 ≤ p.1) (h2 : 0 ≤ p.2) :
    0 ≤ (consumeStep dt p u).1 ∧ 0 ≤ (consumeStep dt p u).2 := by
  unfold consumeStep
  split
  · dsimp only
    split
    · rename_i hp
      exact ⟨(sub_pos.mpr hp).le, add_nonneg h2 (mul_nonneg hdt hmp)⟩
    · exact ⟨h1, h2⟩
  · exact ⟨h1, h2⟩

/-- Folding the consumption step over a list of units with non-negative
metal rates keeps both pools non-negative. -/
theorem foldl_consume_nonneg (dt : ℚ) (hdt : 0 ≤ dt) :
    ∀ (l : List Unit'), (∀ u ∈ l, 0 ≤ u.m_per_second) →
      ∀ p : ℚ × ℚ, 0 ≤ p.1 → 0 ≤ p.2 →
        0 ≤ (l.foldl (consumeStep dt) p).1 ∧ 0 ≤ (l.foldl (consumeStep dt) p).2 := by
  intro l
  induction l with
  | nil => exact fun _ p h1 h2 => ⟨h1, h2⟩
  | cons u l ih =>
      intro hl p h1 h2
      have hstep := consumeStep_nonneg dt hdt u p (hl u (List.Mem.head l)) h1 h2
      exact ih (fun v hv => hl v (List.Mem.tail u hv)) _ hstep.1 hstep.2

/-- A build-pass iteration keeps both pools non-negative: the strict
affordability gate only ever subtracts amounts strictly below the pools,
and the completion branch does not touch the pools. -/
theorem buildStep_pools (dt : ℚ) (s : GameState) (i : Nat)
    (hm : 0 ≤ s.metal) (he : 0 ≤ s.energy) :
    0 ≤ (GameState.buildStep dt s i).metal ∧ 0 ≤ (GameState.buildStep dt s i).energy := by
  simp only [GameState.buildStep]
  split
  · exact ⟨hm, he⟩
  · split
    · split
      · split
        · rename_i hg
          exact ⟨(sub_pos.mpr hg.1).le, (sub_pos.mpr hg.2).le⟩
        · exact ⟨hm, he⟩
      · split
        · rename_i hg
          exact ⟨(sub_pos.mpr hg.1).le, (sub_pos.mpr hg.2).le⟩
        · exact ⟨hm, he⟩
    · exact ⟨hm, he⟩

/-- Transfer of per-unit facts across a frame-preserving pass: every unit
of the new list shares its frame fields with some unit of the old list. -/
theorem mem_frame_transfer {l l2 : List Unit'} (h : l2.map frameFields = l.map frameFields)
    {u : Unit'} (hu : u ∈ l2) : ∃ v ∈ l, frameFields v = frameFields u := by
  have hmem : frameFields u ∈ l2.map frameFields := List.mem_map_of_mem frameFields hu
  rw [h] at hmem
  obtain ⟨v, hv, hve⟩ := List.mem_map.mp hmem
  exact ⟨v, hv, hve⟩

/-- C4 (amended): for every state with non-negative global pools, wind
strength and world base storages, whose units have non-negative rate
fields and non-negative storage contributions, and for every `dt ≥ 0`,
after `simulate(dt)` the global energy and metal pools are non-negative. -/
theorem c4_theorem (dt : ℚ) (s : GameState)
    (hdt : 0 ≤ dt)
    (hm : 0 ≤ s.metal) (he : 0 ≤ s.energy)
    (hw : 0 ≤ s.wind_strength)
    (hbm : 0 ≤ s.world_params.base_metal_storage)
    (hbe : 0 ≤ s.world_params.base_energy_storage)
    (hu : ∀ u ∈ s.units,
      0 ≤ u.e_per_second ∧ 0 ≤ u.e_cost_per_second ∧ 0 ≤ u.wind_e_per_second ∧
      0 ≤ u.m_per_second ∧ 0 ≤ u.e_storage ∧ 0 ≤ u.m_storage) :
    0 ≤ (s.simulate dt).energy ∧ 0 ≤ (s.simulate dt).metal := by
  -- pass 1: the energy pool only grows
  have h1e : 0 ≤ (GameState.productionPass dt s).energy := by
    have heq : (GameState.productionPass dt s).energy
        = s.energy + (s.units.map fun u =>
            if u.alive then
              dt * u.e_per_second + dt * f32_min u.wind_e_per_second s.wind_strength
            else 0).sum :=
      foldl_production dt s.wind_strength s.units s.energy
    rw [heq]
    refine add_nonneg he (List.sum_nonneg ?_)
    intro x hx
    obtain ⟨u, hu2, rfl⟩ := List.mem_map.mp hx
    by_cases halive : u.alive
    · simp only [halive, if_true]
      refine add_nonneg (mul_nonneg hdt (hu u hu2).1) (mul_nonneg hdt ?_)
      rw [f32_min_eq]
      exact le_min (hu u hu2).2.2.1 hw
    · simp [halive]
  have h1m : 0 ≤ (GameState.productionPass dt s).metal := hm
  -- pass 2
  have h2 := foldl_consume_nonneg dt hdt s.units
    (fun u hu2 => (hu u hu2).2.2.2.1)
    ((GameState.productionPass dt s).energy, (GameState.productionPass dt s).metal) h1e h1m
  have h2e : 0 ≤ (GameState.consumptionPass dt (GameState.productionPass dt s)).energy := h2.1
  have h2m : 0 ≤ (GameState.consumptionPass dt (GameState.productionPass dt s)).metal := h2.2
  -- pass 3
  have h3 := foldl_buildStep_pres dt (fun st => 0 ≤ st.metal ∧ 0 ≤ st.energy)
    (fun st j hst => buildStep_pools dt st j hst.1 hst.2)
    (List.range (GameState.consumptionPass dt (GameState.productionPass dt s)).units.length)
    (GameState.consumptionPass dt (GameState.productionPass dt s)) ⟨h2m, h2e⟩
  -- storages of the post-pass-3 unit list are still non-negative
  have hframe := buildPass_frame dt (GameState.consumptionPass dt (GameState.productionPass dt s))
  have hstor : ∀ u ∈ (GameState.buildPass dt
      (GameState.consumptionPass dt (GameState.productionPass dt s))).units,
      0 ≤ u.e_storage ∧ 0 ≤ u.m_storage := by
    intro u hu3
    obtain ⟨v, hv, hve⟩ := mem_frame_transfer hframe.1 hu3
    obtain ⟨-, -, -, -, -, -, -, -, hes, -, hms, -⟩ := frameFields_fields hve
    exact ⟨hes ▸ (hu v hv).2.2.2.2.1, hms ▸ (hu v hv).2.2.2.2.2⟩
  -- clamp
  have hwp : (GameState.buildPass dt
      (GameState.consumptionPass dt (GameState.productionPass dt s))).world_params
      = s.world_params := hframe.2.2.1
  constructor
  · show 0 ≤ f32_min _ _
    rw [f32_min_eq]
    refine le_min h3.2 ?_
    rw [energy_storage_eq, hwp]
    refine add_nonneg hbe (List.sum_nonneg ?_)
    intro x hx
    obtain ⟨u, hu3, rfl⟩ := List.mem_map.mp hx
    by_cases halive : u.alive
    · simp only [halive, if_true]
      exact (hstor u hu3).1
    · simp [halive]
  · show 0 ≤ f32_min _ _
    rw [f32_min_eq]
    refine le_min h3.1 ?_
    rw [metal_storage_eq, hwp]
    refine add_nonneg hbm (List.sum_nonneg ?_)
    intro x hx
    obtain ⟨u, hu3, rfl⟩ := List.mem_map.mp hx
    by_cases halive : u.alive
    · simp only [halive, if_true]
      exact (hstor u hu3).2
    · simp [halive]

/-- Witness for C4's amended theorem: the default world with empty unit
list and both pools zeroed keeps both pools non-negative over a
`simulate(1.0)` step. -/
theorem c4_witness : 0 ≤ (c4_w.simulate 1).energy ∧ 0 ≤ (c4_w.simulate 1).metal :=
  c4_theorem 1 c4_w (by decide) (by decide) (by decide) (by decide) (by decide) (by decide)
    (by decide)

/-! ## C3 (amended): zero-dt idempotence -/

/-- With banked metal at most a non-negative metal build cost, the
remaining build fraction is non-negative (a zero build cost reads as
fraction `0` under exact rational division, leaving `remaining = 1`). -/
theorem build_remaining_nonneg (tu : Unit') (hm : tu.metal ≤ tu.m_build_cost)
    (hc : 0 ≤ tu.m_build_cost) : 0 ≤ build_remaining tu := by
  rw [build_remaining]
  rcases eq_or_lt_of_le hc with h0 | hpos
  · rw [← h0, div_zero]
    norm_num
  · have hle := (div_le_one hpos).mpr hm
    linarith

/-- At `dt = 0` the clamped build step is exactly zero whenever the
remaining fraction is non-negative. -/
theorem build_step_amt_zero (bu tu : Unit') (h : 0 ≤ build_remaining tu) :
    build_step_amt 0 bu tu = 0 := by
  rw [build_step_amt, zero_mul, zero_div, f32_min]
  exact if_pos h

/-- The production pass at `dt = 0` is the identity. -/
theorem productionPass_zero (s : GameState) : GameState.productionPass 0 s = s := by
  have h : ∀ (l : List Unit') (a : ℚ),
      l.foldl
        (fun e u =>
          if u.alive then e + 0 * u.e_per_second + 0 * f32_min u.wind_e_per_second s.wind_strength
          else e)
        a = a := by
    intro l
    induction l with
    | nil => intro a; rfl
    | cons u l ih =>
        intro a
        by_cases halive : u.alive
        · simp [halive, ih]
        · simp [halive, ih]
  simp only [GameState.productionPass, h]

/-- The consumption step at `dt = 0` is the identity on the pools. -/
theorem consumeStep_zero (p : ℚ × ℚ) (u : Unit') : consumeStep 0 p u = p := by
  unfold consumeStep
  split
  · dsimp only
    split
    · simp
    · rfl
  · rfl

/-- Folding the `dt = 0` consumption step is the identity. -/
theorem foldl_consume_zero : ∀ (l : List Unit') (p : ℚ × ℚ), l.foldl (consumeStep 0) p = p := by
  intro l
  induction l with
  | nil => intro p; rfl
  | cons u l ih =>
      intro p
      rw [List.foldl_cons, consumeStep_zero]
      exact ih p

/-- The consumption pass at `dt = 0` is the identity. -/
theorem consumptionPass_zero (s : GameState) : GameState.consumptionPass 0 s = s := by
  simp only [GameState.consumptionPass, foldl_consume_zero]

/-- A build-pass iteration at `dt = 0`, on a state whose units have banked
metal within their non-negative metal build cost and non-negative storage
contributions, keeps the pools, time and world parameters at their
original values, keeps the per-unit invariant, and can only grow the
storage caps (a completion may flip a unit alive, adding its non-negative
storage contribution). -/
theorem buildStep_zero_inv (s s2 : GameState) (i : Nat)
    (he : s2.energy = s.energy) (hm : s2.metal = s.metal)
    (ht : s2.time = s.time) (hwp : s2.world_params = s.world_params)
    (hu : ∀ u ∈ s2.units, u.metal ≤ u.m_build_cost ∧ 0 ≤ u.m_build_cost ∧
       0 ≤ u.m_storage ∧ 0 ≤ u.e_storage)
    (hms : s.metal_storage ≤ s2.metal_storage)
    (hes : s.energy_storage ≤ s2.energy_storage) :
    (GameState.buildStep 0 s2 i).energy = s.energy ∧
    (GameState.buildStep 0 s2 i).metal = s.metal ∧
    (GameState.buildStep 0 s2 i).time = s.time ∧
    (GameState.buildStep 0 s2 i).world_params = s.world_params ∧
    (∀ u ∈ (GameState.buildStep 0 s2 i).units,
       u.metal ≤ u.m_build_cost ∧ 0 ≤ u.m_build_cost ∧
       0 ≤ u.m_storage ∧ 0 ≤ u.e_storage) ∧
    s.metal_storage ≤ (GameState.buildStep 0 s2 i).metal_storage ∧
    s.energy_storage ≤ (GameState.buildStep 0 s2 i).energy_storage := by
  have hinv : ∀ n : Nat,
      (s2.units.getD n default).metal ≤ (s2.units.getD n default).m_build_cost ∧
      0 ≤ (s2.units.getD n default).m_build_cost ∧
      0 ≤ (s2.units.getD n default).m_storage ∧
      0 ≤ (s2.units.getD n default).e_storage := by
    intro n
    by_cases hn : n < s2.units.length
    · exact hu _ (getD_mem _ _ _ hn)
    · push_neg at hn
      rw [getD_len_le _ _ _ hn]
      exact ⟨le_refl _, le_refl _, le_refl _, le_refl _⟩
  simp only [GameState.buildStep]
  split
  · exact ⟨he, hm, ht, hwp, hu, hms, hes⟩
  · rename_i bt t htarget
    split
    · rename_i halive
      have hrem : 0 ≤ build_remaining (s2.units.getD t default) :=
        build_remaining_nonneg _ (hinv t).1 (hinv t).2.1
      have hstep : build_step_amt 0 (s2.units.getD i default) (s2.units.getD t default) = 0 :=
        build_step_amt_zero _ _ hrem
      have hbm : build_m_cost 0 (s2.units.getD i default) (s2.units.getD t default) = 0 := by
        rw [build_m_cost, hstep, zero_mul]
      have hbe : build_e_cost 0 (s2.units.getD i default) (s2.units.getD t default) = 0 := by
        rw [build_e_cost, hstep, zero_mul]
      have hs1 :
          (if build_m_cost 0 (s2.units.getD i default) (s2.units.getD t default) < s2.metal ∧
              build_e_cost 0 (s2.units.getD i default) (s2.units.getD t default) < s2.energy then
            { s2 with
              metal := s2.metal
                - build_m_cost 0 (s2.units.getD i default) (s2.units.getD t default)
              energy := s2.energy
                - build_e_cost 0 (s2.units.getD i default) (s2.units.getD t default)
              units := s2.units.set t
                { s2.units.getD t default with
                  metal := (s2.units.getD t default).metal
                    + build_m_cost 0 (s2.units.getD i default) (s2.units.getD t default)
                  energy := (s2.units.getD t default).energy
                    + build_e_cost 0 (s2.units.getD i default) (s2.units.getD t default) } }
          else s2) = s2 := by
        split
        · apply GameState.ext <;>
            first
              | rfl
              | (simp only [hbm, hbe, sub_zero, add_zero]
                 try rfl
                 try exact set_getD_self_eq s2.units t default)
        · rfl
      rw [hs1]
      split
      · refine ⟨he, hm, ht, hwp, ?_, ?_, ?_⟩
        · have hX : ∀ u ∈ s2.units.set t ((s2.units.getD t default).construct),
              u.metal ≤ u.m_build_cost ∧ 0 ≤ u.m_build_cost ∧
              0 ≤ u.m_storage ∧ 0 ≤ u.e_storage := by
            intro u hu2
            rcases List.mem_or_eq_of_mem_set hu2 with h2 | h2
            · exact hu u h2
            · subst h2
              exact ⟨le_refl _, (hinv t).2.1, (hinv t).2.2.1, (hinv t).2.2.2⟩
          have hXn : ∀ n : Nat,
              ((s2.units.set t ((s2.units.getD t default).construct)).getD n default).metal
                ≤ ((s2.units.set t
                    ((s2.units.getD t default).construct)).getD n default).m_build_cost ∧
              0 ≤ ((s2.units.set t
                    ((s2.units.getD t default).construct)).getD n default).m_build_cost ∧
              0 ≤ ((s2.units.set t
                    ((s2.units.getD t default).construct)).getD n default).m_storage ∧
              0 ≤ ((s2.units.set t
                    ((s2.units.getD t default).construct)).getD n default).e_storage := by
            intro n
            by_cases hn : n < (s2.units.set t ((s2.units.getD t default).construct)).length
            · exact hX _ (getD_mem _ _ _ hn)
            · push_neg at hn
              rw [getD_len_le _ _ _ hn]
              exact ⟨le_refl _, le_refl _, le_refl _, le_refl _⟩
          intro u hu2
          rcases List.mem_or_eq_of_mem_set hu2 with h2 | h2
          · exact hX u h2
          · subst h2
            exact ⟨(hXn i).1, (hXn i).2.1, (hXn i).2.2.1, (hXn i).2.2.2⟩
        · refine le_trans hms ?_
          rw [metal_storage_eq, metal_storage_eq]
          refine add_le_add_left ?_ _
          refine le_trans
            (sum_map_set_le _ s2.units t ((s2.units.getD t default).construct) ?_)
            (sum_map_set_le _ (s2.units.set t ((s2.units.getD t default).construct)) i _ ?_)
          · have hca : ((s2.units.getD t default).construct).alive = true := rfl
            by_cases halive2 : (s2.units.getD t default).alive
            · rw [if_pos halive2, if_pos hca]
              exact le_of_eq rfl
            · rw [if_neg halive2, if_pos hca]
              exact (hinv t).2.2.1
          · exact le_of_eq rfl
        · refine le_trans hes ?_
          rw [energy_storage_eq, energy_storage_eq]
          refine add_le_add_left ?_ _
          refine le_trans
            (sum_map_set_le _ s2.units t ((s2.units.getD t default).construct) ?_)
            (sum_map_set_le _ (s2.units.set t ((s2.units.getD t default).construct)) i _ ?_)
          · have hca : ((s2.units.getD t default).construct).alive = true := rfl
            by_cases halive2 : (s2.units.getD t default).alive
            · rw [if_pos halive2, if_pos hca]
              exact le_of_eq rfl
            · rw [if_neg halive2, if_pos hca]
              exact (hinv t).2.2.2
          · exact le_of_eq rfl
      · exact ⟨he, hm, ht, hwp, hu, hms, hes⟩
    · exact ⟨he, hm, ht, hwp, hu, hms, hes⟩

/-- C3 (amended): for every `GameState` whose global pools do not exceed
the storage caps and whose units have banked metal within their
non-negative metal build cost and non-negative storage contributions,
`simulate(0.0)` leaves the global energy pool, the global metal pool and
time unchanged. -/
theorem c3_theorem (s : GameState)
    (hm : s.metal ≤ s.metal_storage)
    (he : s.energy ≤ s.energy_storage)
    (hu : ∀ u ∈ s.units, u.metal ≤ u.m_build_cost ∧ 0 ≤ u.m_build_cost ∧
       0 ≤ u.m_storage ∧ 0 ≤ u.e_storage) :
    (s.simulate 0).energy = s.energy ∧ (s.simulate 0).metal = s.metal ∧
    (s.simulate 0).time = s.time := by
  have hp2 : GameState.consumptionPass 0 (GameState.productionPass 0 s) = s := by
    rw [productionPass_zero]
    exact consumptionPass_zero s
  have h3 := foldl_buildStep_pres 0
    (fun st =>
      st.energy = s.energy ∧ st.metal = s.metal ∧ st.time = s.time ∧
      st.world_params = s.world_params ∧
      (∀ u ∈ st.units, u.metal ≤ u.m_build_cost ∧ 0 ≤ u.m_build_cost ∧
         0 ≤ u.m_storage ∧ 0 ≤ u.e_storage) ∧
      s.metal_storage ≤ st.metal_storage ∧ s.energy_storage ≤ st.energy_storage)
    (fun st j hst =>
      buildStep_zero_inv s st j hst.1 hst.2.1 hst.2.2.1 hst.2.2.2.1 hst.2.2.2.2.1
        hst.2.2.2.2.2.1 hst.2.2.2.2.2.2)
    (List.range (GameState.consumptionPass 0 (GameState.productionPass 0 s)).units.length)
    (GameState.consumptionPass 0 (GameState.productionPass 0 s))
    (by rw [hp2]; exact ⟨rfl, rfl, rfl, rfl, hu, le_refl _, le_refl _⟩)
  simp only [GameState.simulate, GameState.buildPass]
  rw [hp2] at h3 ⊢
  obtain ⟨h3e, h3m, h3t, h3wp, h3u, h3ms, h3es⟩ := h3
  refine ⟨?_, ?_, ?_⟩
  · show f32_min _ _ = s.energy
    rw [f32_min_eq, h3e]
    exact min_eq_left (he.trans h3es)
  · show f32_min _ _ = s.metal
    rw [f32_min_eq, h3m]
    exact min_eq_left (hm.trans h3ms)
  · show _ + (0 : ℚ) = s.time
    rw [add_zero]
    exact h3t

/-- Witness for C3's amended theorem: the default world with empty unit
list and pools at the base storage `500`, on which `simulate(0.0)` leaves
energy, metal and time unchanged. -/
theorem c3_witness :
    (c3_w.simulate 0).energy = c3_w.energy ∧ (c3_w.simulate 0).metal = c3_w.metal ∧
    (c3_w.simulate 0).time = c3_w.time :=
  c3_theorem c3_w (by decide) (by decide) (by decide)
